import Mathlib

/-!
Shallow embedding of the nestjs-mongo-poc repository: the startup
configuration pipeline (env-file resolution and validation), the global
middleware chain (LoggerMiddleware, AuthMiddleware), and the products
CRUD controller/service over an opaque document store.
-/

/-! ## JavaScript values (for raw config mappings and request bodies) -/

/-- A JavaScript runtime value, as far as the validation code inspects it:
strings, numbers (exact rationals), booleans, null, undefined. -/
inductive JSValue where
  | str (s : String)
  | num (q : Rat)
  | bool (b : Bool)
  | null
  | undefined
deriving DecidableEq

/-- JS ToString coercion, as applied by class-transformer implicit
conversion to a field declared String (String(v)); integers print without
a decimal point, non-integral rationals are rendered via Rat.toString
(an abstraction of JS decimal formatting; no claim inspects this text). -/
def jsToString : JSValue → String
  | .str s => s
  | .num q => if q.den = 1 then toString q.num else toString q
  | .bool b => if b then "true" else "false"
  | .null => "null"
  | .undefined => "undefined"

/-- Whether a JSValue is null or undefined (class-transformer leaves these
unconverted, and class-validator IsOptional skips exactly these). -/
def isNullish : JSValue → Bool
  | .null => true
  | .undefined => true
  | _ => false

/-- class-validator IsString: the value is a string primitive. -/
def jsIsString : JSValue → Bool
  | .str _ => true
  | _ => false

/-- class-validator IsNumber (default options): the value is a number. -/
def jsIsNumber : JSValue → Bool
  | .num _ => true
  | _ => false

/-- class-validator IsNotEmpty: value is not empty string, null or
undefined. -/
def jsIsNotEmpty : JSValue → Bool
  | .str s => !s.isEmpty
  | .null => false
  | .undefined => false
  | _ => true

/-! ## Configuration resolver and validator
(src/app.module.ts lines 13-17 and 29-38, src/config/env-validation.ts) -/

/-- Fatal startup failures: the env file is absent, or the loaded
configuration violates its schema (carrying every violated field). -/
inductive StartupError where
  | configurationMissing (path : String)
  | configurationInvalid (fields : List String)
deriving DecidableEq

/-- app.module.ts line 13: the env file path is the fixed prefix ".env."
followed by the runtime mode (process.env.NODE_ENV). -/
def envFile (mode : String) : String := ".env." ++ mode

/-- The validated typed configuration: class EnvironmentVariables with a
single @IsString MONGODB_URI field. -/
structure EnvironmentVariables where
  MONGODB_URI : String
deriving DecidableEq

/-- Look up a key in the raw config mapping (first binding wins). -/
def lookupJs (config : List (String × JSValue)) (key : String) : JSValue :=
  match config.find? (fun kv => kv.1 = key) with
  | some kv => kv.2
  | none => .undefined

/-- plainToInstance with enableImplicitConversion, restricted to the
EnvironmentVariables schema: a present non-nullish value for a field
declared String is coerced via JS ToString; null and undefined are left
as they are. -/
def implicitConvertString (v : JSValue) : JSValue :=
  if isNullish v then v else .str (jsToString v)

/-- validateSync over the EnvironmentVariables schema with
skipMissingProperties false: every field is checked against all of its
decorators and all violated fields are collected (here the schema has
the single field MONGODB_URI with the single decorator @IsString). -/
def environmentSchemaErrors (config : List (String × JSValue)) : List String :=
  if jsIsString (implicitConvertString (lookupJs config "MONGODB_URI")) then []
  else ["MONGODB_URI"]

/-- src/config/env-validation.ts validateEnvironmentVariables: transform
the raw mapping, run validateSync, throw listing the errors when any
exist, otherwise return the validated typed configuration. -/
def validateEnvironmentVariables (config : List (String × JSValue)) :
    Except StartupError EnvironmentVariables :=
  let errors := environmentSchemaErrors config
  if errors.isEmpty then
    .ok ⟨jsToString (lookupJs config "MONGODB_URI")⟩
  else
    .error (.configurationInvalid errors)

/-- Process startup (module load of app.module.ts followed by bootstrap):
resolve the env file from the mode, abort with ConfigurationMissing if
the filesystem (modelled as the set of existing paths) lacks it, then
validate the loaded raw configuration, aborting with
ConfigurationInvalid on violations; only on success does the app reach
the listening state carrying the validated configuration. -/
def bootstrapApp (fsExists : String → Bool) (mode : String)
    (rawConfig : List (String × JSValue)) :
    Except StartupError EnvironmentVariables :=
  if fsExists (envFile mode) then
    validateEnvironmentVariables rawConfig
  else
    .error (.configurationMissing (envFile mode))

/-- The HTTP listener is opened exactly when startup succeeded; an early
throw at module load or in config validation prevents it. -/
def listenerOpened (r : Except StartupError EnvironmentVariables) : Bool :=
  match r with
  | .ok _ => true
  | .error _ => false

/-! ## Request gate: LoggerMiddleware and AuthMiddleware
(src/middlewares, bootstrap in main.ts, AppModule.configure) -/

/-- The per-request context the middleware chain inspects: method, URL and
the authorization header (none when the header is absent). -/
structure Request where
  method : String
  originalUrl : String
  authorization : Option String
deriving DecidableEq

/-- A finalized HTTP response: status code and serialized JSON body. -/
structure HttpResponse where
  status : Nat
  body : String
deriving DecidableEq

/-- The body AuthMiddleware sends on rejection:
res.status(403).json with message Unauthorized. -/
def unauthorizedBody : String := "\x7b\"message\":\"Unauthorized\"\x7d"

/-- Observable stages of one request passing through the pipeline:
the logger records method and URL; the auth middleware records the
header value it inspected; the matched resource handler runs. -/
inductive Event where
  | logged (method url : String)
  | authChecked (token : Option String)
  | handled
deriving DecidableEq

/-- One middleware step either calls next() (recording its events) or
finalizes the response, short-circuiting the chain. -/
inductive MwStep where
  | next (events : List Event)
  | respond (events : List Event) (resp : HttpResponse)

/-- JS falsiness of the header value: undefined (header absent) and the
empty string are falsy, every other string is truthy. -/
def jsFalsyStr : Option String → Bool
  | none => true
  | some s => s == ""

/-- src/middlewares/logger/logger.middleware.ts: log the incoming
method and URL, then next(); never rejects. -/
def LoggerMiddleware (req : Request) : MwStep :=
  .next [.logged req.method req.originalUrl]

/-- src/middlewares/auth/auth.middleware.ts AuthMiddleware.use: read
req.headers authorization; if falsy, finalize 403 with the Unauthorized
JSON body; otherwise log the token and next(). -/
def AuthMiddleware (req : Request) : MwStep :=
  let token := req.authorization
  if jsFalsyStr token then
    .respond [.authChecked token] ⟨403, unauthorizedBody⟩
  else
    .next [.authChecked token]

/-- Run a middleware chain in registration order, accumulating events and
short-circuiting on the first finalized response. -/
def runChain : List (Request → MwStep) → Request → List Event × Option HttpResponse
  | [], _ => ([], none)
  | m :: ms, req =>
    match m req with
    | .respond evs r => (evs, some r)
    | .next evs =>
      let rest := runChain ms req
      (evs ++ rest.1, rest.2)

/-- The chain every request passes through: LoggerMiddleware is
registered first (app.use in bootstrap, before init), then
AuthMiddleware (AppModule.configure, forRoutes wildcard, bound at
init). -/
def middlewareChain : List (Request → MwStep) := [LoggerMiddleware, AuthMiddleware]


/-! ## Products resource
(src/products/products.service.ts, src/products/products.controller.ts,
the CreateProductDto and UpdateProductDto class-validator schemas) -/

/-- Modelled from the spec: the Product schema file
(src/schemas/Product.schema.ts) is not among the provided sources; per
the spec, a Product Record is identified by an opaque unique identifier
and carries name (required, non-empty text), description (optional
text), price (required, non-negative number), category (optional text).
The stored document includes its generated identifier. -/
structure ProductDoc where
  _id : String
  name : String
  description : Option String
  price : Rat
  category : Option String
deriving DecidableEq

/-- The opaque document store, in insertion order. -/
abbrev Store : Type := List ProductDoc

/-- The create payload the service receives after the validation pipe:
name and price with optional description and category. -/
structure CreateProductPayload where
  name : String
  description : Option String
  price : Rat
  category : Option String
deriving DecidableEq

/-- src/products/dto/UpdateProduct.dto.ts (shown in the repository
README): every field optional, so individual fields update without the
others; none means the field is absent from the PATCH body. -/
structure UpdateProductDto where
  name : Option String
  description : Option String
  price : Option Rat
  category : Option String
  imageUrl : Option String
deriving DecidableEq

/-- mongoose Model.findById: the document with the given identifier, if
any (first match in insertion order; identifiers are unique in a real
collection). -/
def findById : Store → String → Option ProductDoc
  | [], _ => none
  | d :: rest, i => if d._id = i then some d else findById rest i

/-- mongoose findByIdAndUpdate semantics for a plain partial document:
fields present in the update are set, absent fields keep their stored
values. The modelled Product schema has no imageUrl path, so mongoose
strict mode drops that field. -/
def applyUpdate (d : ProductDoc) (u : UpdateProductDto) : ProductDoc :=
  { d with
    name := u.name.getD d.name
    description := match u.description with
      | some s => some s
      | none => d.description
    price := u.price.getD d.price
    category := match u.category with
      | some s => some s
      | none => d.category }

namespace ProductsService

/-- products.service.ts createProduct: construct a new document from the
payload under a store-generated fresh identifier and save it; returns
the saved document and the new store state. -/
def createProduct (store : Store) (freshId : String)
    (dto : CreateProductPayload) : ProductDoc × Store :=
  let doc : ProductDoc :=
    { _id := freshId, name := dto.name, description := dto.description,
      price := dto.price, category := dto.category }
  (doc, store ++ [doc])

/-- products.service.ts getProducts: Model.find, all documents. -/
def getProducts (store : Store) : List ProductDoc := store

/-- products.service.ts getProductById: Model.findById. -/
def getProductById (store : Store) (i : String) : Option ProductDoc :=
  findById store i

/-- products.service.ts updateProduct: Model.findByIdAndUpdate with
new true — returns the updated document (none when no document has the
identifier) and the store with the matched document replaced. -/
def updateProduct : Store → String → UpdateProductDto →
    Option ProductDoc × Store
  | [], _, _ => (none, [])
  | d :: rest, i, u =>
    if d._id = i then
      (some (applyUpdate d u), applyUpdate d u :: rest)
    else
      let r := updateProduct rest i u
      (r.1, d :: r.2)

/-- products.service.ts deleteProduct: Model.findByIdAndDelete — returns
the deleted document (none when absent) and the store without it. -/
def deleteProduct : Store → String → Option ProductDoc × Store
  | [], _ => (none, [])
  | d :: rest, i =>
    if d._id = i then
      (some d, rest)
    else
      let r := deleteProduct rest i
      (r.1, d :: r.2)

end ProductsService

/-- mongoose.Types.ObjectId.isValid on a string argument: a 24-character
hexadecimal string, or any 12-character string (interpreted as 12
bytes). -/
def isValidObjectId (s : String) : Bool :=
  s.length = 12 ||
    (s.length = 24 && s.toList.all (fun c =>
      c.isDigit || (('a' ≤ c) && (c ≤ 'f')) || (('A' ≤ c) && (c ≤ 'F'))))

/-- A persistence call issued by a handler, named after the mongoose
model method the service delegates to. -/
inductive DbOp where
  | save (doc : ProductDoc)
  | find
  | findByIdOp (i : String)
  | findByIdAndUpdate (i : String)
  | findByIdAndDelete (i : String)
deriving DecidableEq

/-- Responses the products controller produces: success payloads per
endpoint, or an HttpException with status and message. -/
inductive ApiResponse where
  | created (message : String) (product : ProductDoc)
  | listed (count : Nat) (products : List ProductDoc)
  | retrieved (message : String) (product : ProductDoc)
  | updated (message : String) (product : ProductDoc)
  | deleted (message : String)
  | httpError (status : Nat) (message : String)
deriving DecidableEq

/-- The HTTP status of a controller response: 201 for resource creation
(POST default), 200 for other successes, the carried status for an
HttpException. -/
def ApiResponse.statusOf : ApiResponse → Nat
  | .created _ _ => 201
  | .httpError s _ => s
  | _ => 200

/-- The raw JSON body of a POST /products request as the validation pipe
sees it; a field the client omitted is the undefined value. -/
structure CreateBody where
  name : JSValue
  description : JSValue
  price : JSValue
  category : JSValue
deriving DecidableEq

/-- The CreateProductDto checked into src/products/dto/CreateProduct.dto.ts:
name is @IsNotEmpty @IsString, description is @IsString @IsOptional,
price is @IsNotEmpty @IsNumber; the class declares no category field and
no @Min(0) on price. ValidationPipe (default options, no whitelist)
collects the violated fields; undeclared body fields are not checked. -/
def validateCreateProduct (b : CreateBody) : List String :=
  (if jsIsNotEmpty b.name && jsIsString b.name then [] else ["name"]) ++
  (if isNullish b.description || jsIsString b.description then []
   else ["description"]) ++
  (if jsIsNotEmpty b.price && jsIsNumber b.price then [] else ["price"])

/-- The typed payload the controller receives once validation passed:
name and price read back at their validated types, description when it
is a string, and category passed through when the client sent text
(ValidationPipe without whitelist leaves undeclared fields on the
object; the modelled Product schema stores category as optional
text). -/
def payloadOfBody (b : CreateBody) : CreateProductPayload :=
  { name := match b.name with | .str s => s | _ => ""
    description := match b.description with | .str s => some s | _ => none
    price := match b.price with | .num q => q | _ => 0
    category := match b.category with | .str s => some s | _ => none }

namespace ProductsController

/-- products.controller.ts createProduct (with its ValidationPipe): on
violations respond 400 Bad Request before any persistence call;
otherwise save via the service and respond with the created product. -/
def createProduct (store : Store) (freshId : String) (body : CreateBody) :
    ApiResponse × List DbOp × Store :=
  match validateCreateProduct body with
  | [] =>
    let r := ProductsService.createProduct store freshId (payloadOfBody body)
    (.created "Product created successfully" r.1, [.save r.1], r.2)
  | _ => (.httpError 400 "Bad Request", [], store)

/-- products.controller.ts getProducts: list all documents with their
count. -/
def getProducts (store : Store) : ApiResponse × List DbOp :=
  let products := ProductsService.getProducts store
  (.listed products.length products, [.find])

/-- products.controller.ts getProductById: reject a malformed identifier
with 400 before any persistence call; otherwise fetch, responding 404
when no document exists and 200 with the document otherwise. -/
def getProductById (store : Store) (i : String) : ApiResponse × List DbOp :=
  if !isValidObjectId i then
    (.httpError 400 "Invalid ID format", [])
  else
    match ProductsService.getProductById store i with
    | none => (.httpError 404 "Product not found", [.findByIdOp i])
    | some p => (.retrieved "Product retrieved successfully" p, [.findByIdOp i])

/-- products.controller.ts updateProductById: reject a malformed
identifier with 400 before any persistence call; otherwise update,
responding 404 when no document exists and 200 with the updated
document otherwise. -/
def updateProductById (store : Store) (i : String) (dto : UpdateProductDto) :
    ApiResponse × List DbOp × Store :=
  if !isValidObjectId i then
    (.httpError 400 "Invalid ID format", [], store)
  else
    let r := ProductsService.updateProduct store i dto
    match r.1 with
    | none => (.httpError 404 "Product not found", [.findByIdAndUpdate i], r.2)
    | some p => (.updated "Product successfully updated" p,
        [.findByIdAndUpdate i], r.2)

/-- products.controller.ts deleteProduct: reject a malformed identifier
with 400 before any persistence call; otherwise delete, responding 404
when no document exists and 200 with a confirmation otherwise. -/
def deleteProduct (store : Store) (i : String) : ApiResponse × List DbOp × Store :=
  if !isValidObjectId i then
    (.httpError 400 "Invalid ID format", [], store)
  else
    let r := ProductsService.deleteProduct store i
    match r.1 with
    | none => (.httpError 404 "Product not found", [.findByIdAndDelete i], r.2)
    | some _ => (.deleted "Product successfully deleted",
        [.findByIdAndDelete i], r.2)

end ProductsController

/-- Dispatch one request through the full pipeline: run the middleware
chain in registration order; if it finalized a response the matched
resource handler never runs and no persistence call is made, otherwise
the handler runs (recording the handled event) and produces the
response together with the persistence calls it issued. -/
def handleRequest (handler : Request → HttpResponse × List DbOp)
    (req : Request) : List Event × HttpResponse × List DbOp :=
  match runChain middlewareChain req with
  | (evs, some resp) => (evs, resp, [])
  | (evs, none) =>
    let hr := handler req
    (evs ++ [.handled], hr.1, hr.2)

/-! ## Helper lemmas about the document store -/

/-- applyUpdate never changes the stored identifier. -/
theorem applyUpdate_id (d : ProductDoc) (u : UpdateProductDto) :
    (applyUpdate d u)._id = d._id := rfl

/-- An identifier outside the stored identifiers is not found. -/
theorem findById_eq_none_of_not_mem (s : Store) (i : String)
    (h : i ∉ s.map ProductDoc._id) : findById s i = none := by
  induction s with
  | nil => rfl
  | cons d rest ih =>
    simp only [List.map_cons, List.mem_cons, not_or] at h
    have hd : ¬ d._id = i := fun e => h.1 e.symm
    simp [findById, hd, ih h.2]

/-- findByIdAndUpdate on an absent identifier returns none and leaves the
store unchanged. -/
theorem updateProduct_of_absent (s : Store) (i : String)
    (u : UpdateProductDto) (h : findById s i = none) :
    ProductsService.updateProduct s i u = (none, s) := by
  induction s with
  | nil => rfl
  | cons d rest ih =>
    by_cases hd : d._id = i
    · simp [findById, hd] at h
    · simp only [findById, hd, if_false] at h
      simp [ProductsService.updateProduct, hd, ih h]

/-- findByIdAndDelete on an absent identifier returns none and leaves the
store unchanged. -/
theorem deleteProduct_of_absent (s : Store) (i : String)
    (h : findById s i = none) :
    ProductsService.deleteProduct s i = (none, s) := by
  induction s with
  | nil => rfl
  | cons d rest ih =>
    by_cases hd : d._id = i
    · simp [findById, hd] at h
    · simp only [findById, hd, if_false] at h
      simp [ProductsService.deleteProduct, hd, ih h]

/-- findByIdAndDelete on a present identifier returns the stored
document. -/
theorem deleteProduct_of_found (s : Store) (i : String) (doc : ProductDoc)
    (h : findById s i = some doc) :
    (ProductsService.deleteProduct s i).1 = some doc := by
  induction s with
  | nil => simp [findById] at h
  | cons d rest ih =>
    by_cases hd : d._id = i
    · simp only [findById, hd, if_true, Option.some.injEq] at h
      subst h
      simp [ProductsService.deleteProduct, hd]
    · simp only [findById, hd, if_false] at h
      simp [ProductsService.deleteProduct, hd, ih h]

/-- After findByIdAndDelete, a store with pairwise-distinct identifiers
no longer contains the deleted identifier. -/
theorem findById_deleteProduct_of_nodup (s : Store) (i : String)
    (h : (s.map ProductDoc._id).Nodup) :
    findById (ProductsService.deleteProduct s i).2 i = none := by
  induction s with
  | nil => rfl
  | cons d rest ih =>
    simp only [List.map_cons, List.nodup_cons] at h
    by_cases hd : d._id = i
    · simp only [ProductsService.deleteProduct, hd, if_true]
      exact findById_eq_none_of_not_mem rest i (hd ▸ h.1)
    · simp [ProductsService.deleteProduct, findById, hd, ih h.2]

/-- findByIdAndUpdate on a present identifier returns the stored document
with the partial update applied. -/
theorem updateProduct_of_found_fst (s : Store) (i : String)
    (u : UpdateProductDto) (doc : ProductDoc)
    (h : findById s i = some doc) :
    (ProductsService.updateProduct s i u).1 = some (applyUpdate doc u) := by
  induction s with
  | nil => simp [findById] at h
  | cons d rest ih =>
    by_cases hd : d._id = i
    · simp only [findById, hd, if_true, Option.some.injEq] at h
      subst h
      simp [ProductsService.updateProduct, hd]
    · simp only [findById, hd, if_false] at h
      simp [ProductsService.updateProduct, hd, ih h]

/-- After findByIdAndUpdate on a present identifier, fetching that
identifier yields the updated document. -/
theorem findById_updateProduct_of_found (s : Store) (i : String)
    (u : UpdateProductDto) (doc : ProductDoc)
    (h : findById s i = some doc) :
    findById (ProductsService.updateProduct s i u).2 i =
      some (applyUpdate doc u) := by
  induction s with
  | nil => simp [findById] at h
  | cons d rest ih =>
    by_cases hd : d._id = i
    · simp only [findById, hd, if_true, Option.some.injEq] at h
      subst h
      simp [ProductsService.updateProduct, findById, applyUpdate, hd]
    · simp only [findById, hd, if_false] at h
      simp [ProductsService.updateProduct, findById, hd, ih h]

/-- Saving under an identifier absent from the store makes that document
findable. -/
theorem findById_append_self (s : Store) (d : ProductDoc)
    (h : findById s d._id = none) : findById (s ++ [d]) d._id = some d := by
  induction s with
  | nil => simp [findById]
  | cons e rest ih =>
    by_cases he : e._id = d._id
    · simp [findById, he] at h
    · simp only [findById, he, if_false] at h
      simp only [List.cons_append, findById, he, if_false]
      exact ih h

/-! ## Claim theorems -/

/-- C1: for every inbound request on any route, a request lacking the
authorization header is finalized by the gate with status 403 and body
\x7b"message":"Unauthorized"\x7d — the trace shows no handler stage and
the persistence call list is empty — while a request whose header holds
any non-empty value passes the gate and reaches the matched resource
handler, whose response and persistence calls become the outcome. -/
theorem auth_gate_rejects_or_advances
    (handler : Request → HttpResponse × List DbOp) (req : Request) :
    (req.authorization = none →
      handleRequest handler req =
        ([.logged req.method req.originalUrl, .authChecked none],
         ⟨403, unauthorizedBody⟩, [])) ∧
    (∀ t, req.authorization = some t → t ≠ "" →
      handleRequest handler req =
        ([.logged req.method req.originalUrl, .authChecked (some t),
          .handled],
         (handler req).1, (handler req).2)) := by
  constructor
  · intro h
    simp [handleRequest, runChain, middlewareChain, LoggerMiddleware,
      AuthMiddleware, jsFalsyStr, h]
  · intro t ht hne
    simp [handleRequest, runChain, middlewareChain, LoggerMiddleware,
      AuthMiddleware, jsFalsyStr, ht, hne]

/-- C1 witness: a concrete header-less GET is rejected with 403 and an
empty persistence trace, and a concrete request bearing a non-empty
token reaches the handler. -/
theorem auth_gate_rejects_or_advances_witness :
    handleRequest (fun _ => (⟨200, "ok"⟩, [])) ⟨"GET", "/", none⟩ =
      ([.logged "GET" "/", .authChecked none], ⟨403, unauthorizedBody⟩,
       []) ∧
    handleRequest (fun _ => (⟨200, "ok"⟩, []))
        ⟨"GET", "/products", some "Bearer abc"⟩ =
      ([.logged "GET" "/products", .authChecked (some "Bearer abc"),
        .handled],
       ⟨200, "ok"⟩, []) := by
  constructor
  · exact (auth_gate_rejects_or_advances _ _).1 rfl
  · exact (auth_gate_rejects_or_advances (fun _ => (⟨200, "ok"⟩, []))
      ⟨"GET", "/products", some "Bearer abc"⟩).2 "Bearer abc" rfl
      (by decide)

/-- C2: the stages of every request, on every route, run in the fixed
order Logged, then AuthChecked, then (unless the gate rejected) the
resource handler: the full stage trace is either exactly
[logged, authChecked] (the gate rejected a falsy header) or exactly
[logged, authChecked, handled]. -/
theorem middleware_order
    (handler : Request → HttpResponse × List DbOp) (req : Request) :
    ((handleRequest handler req).1 =
        [.logged req.method req.originalUrl,
         .authChecked req.authorization] ∧
      jsFalsyStr req.authorization = true) ∨
    ((handleRequest handler req).1 =
        [.logged req.method req.originalUrl,
         .authChecked req.authorization, .handled] ∧
      jsFalsyStr req.authorization = false) := by
  by_cases h : jsFalsyStr req.authorization = true
  · left
    refine ⟨?_, h⟩
    simp [handleRequest, runChain, middlewareChain, LoggerMiddleware,
      AuthMiddleware, h]
  · right
    rw [Bool.not_eq_true] at h
    refine ⟨?_, h⟩
    simp [handleRequest, runChain, middlewareChain, LoggerMiddleware,
      AuthMiddleware, h]

/-- C10: a request whose authorization header is present but empty is
rejected with 403 and the Unauthorized body and the same response and
(absent) persistence calls as a header-less request — the gate tests
the header value for falsiness, not presence — and the handler stage
runs only when the header holds some non-empty value. -/
theorem empty_header_rejected
    (handler : Request → HttpResponse × List DbOp) (req : Request) :
    (req.authorization = some "" →
      handleRequest handler req =
        ([.logged req.method req.originalUrl, .authChecked (some "")],
         ⟨403, unauthorizedBody⟩, []) ∧
      (handleRequest handler req).2 =
        (handleRequest handler
          { req with authorization := none }).2) ∧
    (Event.handled ∈ (handleRequest handler req).1 →
      ∃ t, req.authorization = some t ∧ t ≠ "") := by
  constructor
  · intro h
    constructor
    · simp [handleRequest, runChain, middlewareChain, LoggerMiddleware,
        AuthMiddleware, jsFalsyStr, h]
    · simp [handleRequest, runChain, middlewareChain, LoggerMiddleware,
        AuthMiddleware, jsFalsyStr, h]
  · intro hmem
    cases hauth : req.authorization with
    | none =>
      simp [handleRequest, runChain, middlewareChain, LoggerMiddleware,
        AuthMiddleware, jsFalsyStr, hauth] at hmem
    | some t =>
      by_cases ht : t = ""
      · subst ht
        simp [handleRequest, runChain, middlewareChain, LoggerMiddleware,
          AuthMiddleware, jsFalsyStr, hauth] at hmem
      · exact ⟨t, rfl, ht⟩

/-- C10 witness: a concrete request carrying an empty authorization
header is rejected with 403 Unauthorized, identically (response and
persistence calls) to the same request without the header. -/
theorem empty_header_rejected_witness :
    handleRequest (fun _ => (⟨200, "ok"⟩, [])) ⟨"GET", "/", some ""⟩ =
      ([.logged "GET" "/", .authChecked (some "")],
       ⟨403, unauthorizedBody⟩, []) ∧
    (handleRequest (fun _ => (⟨200, "ok"⟩, [])) ⟨"GET", "/", some ""⟩).2 =
      (handleRequest (fun _ => (⟨200, "ok"⟩, [])) ⟨"GET", "/", none⟩).2 :=
  (empty_header_rejected (fun _ => (⟨200, "ok"⟩, []))
    ⟨"GET", "/", some ""⟩).1 rfl

/-- C3: for every runtime mode whose env file (the fixed prefix ".env."
plus the mode) is absent from the filesystem, startup fails with the
environment-file-not-found error and the HTTP listener is never opened;
no fallback configuration is produced. -/
theorem startup_missing_env_file (fsExists : String → Bool)
    (mode : String) (raw : List (String × JSValue))
    (h : fsExists (envFile mode) = false) :
    bootstrapApp fsExists mode raw =
      .error (.configurationMissing (".env." ++ mode)) ∧
    listenerOpened (bootstrapApp fsExists mode raw) = false := by
  have h2 : fsExists (".env." ++ mode) = false := h
  constructor
  · simp [bootstrapApp, envFile, h2]
  · simp [bootstrapApp, envFile, h2, listenerOpened]

/-- C3 witness: on an empty filesystem, starting in mode "prod" fails
with ConfigurationMissing for ".env.prod" and the listener stays
closed. -/
theorem startup_missing_env_file_witness :
    bootstrapApp (fun _ => false) "prod" [] =
      .error (.configurationMissing (".env." ++ "prod")) ∧
    listenerOpened (bootstrapApp (fun _ => false) "prod" []) = false :=
  startup_missing_env_file (fun _ => false) "prod" [] rfl

/-- The validator's outcome depends only on whether the connection-URI
field is nullish after transformation: implicit conversion coerces
every present non-nullish value to the declared string type. -/
theorem validateEnvironmentVariables_eq (raw : List (String × JSValue)) :
    validateEnvironmentVariables raw =
      if isNullish (lookupJs raw "MONGODB_URI") then
        .error (.configurationInvalid ["MONGODB_URI"])
      else
        .ok ⟨jsToString (lookupJs raw "MONGODB_URI")⟩ := by
  cases h : lookupJs raw "MONGODB_URI" <;>
    simp [validateEnvironmentVariables, environmentSchemaErrors,
      implicitConvertString, isNullish, jsIsString, h]

/-- C4 counterexample: the raw mapping binding MONGODB_URI to the
boolean true has, in the claim's terms, a schema violation (the
required connection-URI field is of the wrong type — not a string),
yet validation succeeds, because enableImplicitConversion coerces every
present value to the declared string type before @IsString runs. -/
theorem config_wrong_type_accepted :
    jsIsString (lookupJs [("MONGODB_URI", JSValue.bool true)]
      "MONGODB_URI") = false ∧
    validateEnvironmentVariables [("MONGODB_URI", JSValue.bool true)] =
      .ok ⟨"true"⟩ := by
  constructor
  · rfl
  · rfl

/-- C4 (amended): validation fails — with a single ConfigurationInvalid
error listing every violated schema field, here the single field
MONGODB_URI — exactly when that field is missing (or null) in the raw
mapping; any other present value is implicitly converted to text, and
validation returns the typed configuration holding it. Given an
existing env file, this failure alone keeps the listener closed. -/
theorem config_validation_aggregates (raw : List (String × JSValue)) :
    (isNullish (lookupJs raw "MONGODB_URI") = true →
      validateEnvironmentVariables raw =
        .error (.configurationInvalid ["MONGODB_URI"])) ∧
    (isNullish (lookupJs raw "MONGODB_URI") = false →
      validateEnvironmentVariables raw =
        .ok ⟨jsToString (lookupJs raw "MONGODB_URI")⟩) ∧
    (∀ (fsExists : String → Bool) (mode : String),
      fsExists (envFile mode) = true →
      (listenerOpened (bootstrapApp fsExists mode raw) = false ↔
        isNullish (lookupJs raw "MONGODB_URI") = true)) := by
  refine ⟨?_, ?_, ?_⟩
  · intro h
    rw [validateEnvironmentVariables_eq, h]
    rfl
  · intro h
    rw [validateEnvironmentVariables_eq, h]
    rfl
  · intro fsExists mode hfs
    simp only [bootstrapApp, hfs, if_true, validateEnvironmentVariables_eq]
    cases isNullish (lookupJs raw "MONGODB_URI") <;>
      simp [listenerOpened]

/-- C4 witness: the empty mapping (field missing) fails listing
MONGODB_URI and keeps the listener closed even when the env file
exists; a mapping carrying a connection string validates to the typed
configuration. -/
theorem config_validation_aggregates_witness :
    validateEnvironmentVariables [] =
      .error (.configurationInvalid ["MONGODB_URI"]) ∧
    validateEnvironmentVariables
        [("MONGODB_URI", JSValue.str "mongodb://127.0.0.1:27017/dev_db")] =
      .ok ⟨jsToString (lookupJs
        [("MONGODB_URI", JSValue.str "mongodb://127.0.0.1:27017/dev_db")]
        "MONGODB_URI")⟩ ∧
    listenerOpened (bootstrapApp (fun _ => true) "dev" []) = false :=
  ⟨(config_validation_aggregates []).1 rfl,
   (config_validation_aggregates _).2.1 rfl,
   ((config_validation_aggregates []).2.2 (fun _ => true) "dev"
     rfl).mpr rfl⟩

/-- The POST /products body the spec says must be rejected: a valid
non-empty name with a negative price. -/
def negativePriceBody : CreateBody :=
  { name := .str "Laptop", description := .undefined,
    price := .num (-5), category := .undefined }

/-- C5: the checked-in CreateProductDto puts no lower bound on price
(no @Min(0) decorator, unlike the DTO documented in the repository
README), so a create request with a negative price passes validation
(no violated fields), reaches persistence, and succeeds with 201 and
the stored record carrying the negative price — where the spec requires
a 400 rejection before any persistence call. -/
theorem create_accepts_negative_price :
    validateCreateProduct negativePriceBody = [] ∧
    ProductsController.createProduct [] "65f0a1b2c3d4e5f601234567"
        negativePriceBody =
      (.created "Product created successfully"
        ⟨"65f0a1b2c3d4e5f601234567", "Laptop", none, -5, none⟩,
       [.save ⟨"65f0a1b2c3d4e5f601234567", "Laptop", none, -5, none⟩],
       [⟨"65f0a1b2c3d4e5f601234567", "Laptop", none, -5, none⟩]) ∧
    (ProductsController.createProduct [] "65f0a1b2c3d4e5f601234567"
        negativePriceBody).1.statusOf = 201 := by
  refine ⟨rfl, ?_, rfl⟩
  rfl

/-- C6: for get-by-id, update-by-id and delete-by-id, a syntactically
invalid identifier is rejected with 400 Invalid ID format and an empty
persistence trace (the local format check runs before any store
access), a valid identifier with no stored record yields 404 Product
not found, and in particular GET /products/not-a-valid-id is 400. -/
theorem id_format_checked (store : Store) (i : String)
    (dto : UpdateProductDto) :
    (isValidObjectId i = false →
      ProductsController.getProductById store i =
        (.httpError 400 "Invalid ID format", []) ∧
      ProductsController.updateProductById store i dto =
        (.httpError 400 "Invalid ID format", [], store) ∧
      ProductsController.deleteProduct store i =
        (.httpError 400 "Invalid ID format", [], store)) ∧
    (isValidObjectId i = true → findById store i = none →
      (ProductsController.getProductById store i).1 =
        .httpError 404 "Product not found" ∧
      (ProductsController.updateProductById store i dto).1 =
        .httpError 404 "Product not found" ∧
      (ProductsController.deleteProduct store i).1 =
        .httpError 404 "Product not found") ∧
    ProductsController.getProductById store "not-a-valid-id" =
      (.httpError 400 "Invalid ID format", []) := by
  refine ⟨?_, ?_, ?_⟩
  · intro h
    refine ⟨?_, ?_, ?_⟩ <;>
      simp [ProductsController.getProductById,
        ProductsController.updateProductById,
        ProductsController.deleteProduct, h]
  · intro hv habs
    refine ⟨?_, ?_, ?_⟩
    · simp [ProductsController.getProductById, hv,
        ProductsService.getProductById, habs]
    · simp [ProductsController.updateProductById, hv,
        updateProduct_of_absent store i dto habs]
    · simp [ProductsController.deleteProduct, hv,
        deleteProduct_of_absent store i habs]
  · have hbad : isValidObjectId "not-a-valid-id" = false := by decide
    simp [ProductsController.getProductById, hbad]

/-- C6 witness: on the empty store, a 3-character identifier gets 400,
a well-formed 24-hex identifier gets 404, and the literal
not-a-valid-id gets 400. -/
theorem id_format_checked_witness :
    ProductsController.getProductById [] "abc" =
      (.httpError 400 "Invalid ID format", []) ∧
    (ProductsController.getProductById []
      "65f0a1b2c3d4e5f601234567").1 =
      .httpError 404 "Product not found" ∧
    ProductsController.getProductById [] "not-a-valid-id" =
      (.httpError 400 "Invalid ID format", []) :=
  ⟨((id_format_checked [] "abc" ⟨none, none, none, none, none⟩).1
      (by decide)).1,
   ((id_format_checked [] "65f0a1b2c3d4e5f601234567"
      ⟨none, none, none, none, none⟩).2.1 (by decide) rfl).1,
   (id_format_checked [] "x" ⟨none, none, none, none, none⟩).2.2⟩

/-- The round-trip payload from the spec. -/
def laptopPayload : CreateProductPayload :=
  ⟨"Laptop", some "High-performance laptop", (999.99 : Rat),
   some "Electronics"⟩

/-- C7: creating the Laptop payload under a store-generated fresh
identifier and then fetching that identifier returns exactly the
created record, which carries the payload's four attributes under the
returned identifier. -/
theorem create_then_fetch_roundtrip (store : Store) (freshId : String)
    (h : findById store freshId = none) :
    ProductsService.getProductById
        (ProductsService.createProduct store freshId laptopPayload).2
        freshId =
      some (ProductsService.createProduct store freshId
        laptopPayload).1 ∧
    (ProductsService.createProduct store freshId laptopPayload).1 =
      ⟨freshId, "Laptop", some "High-performance laptop",
       (999.99 : Rat), some "Electronics"⟩ := by
  constructor
  · simpa [ProductsService.createProduct, ProductsService.getProductById,
      laptopPayload] using
      findById_append_self store
        ⟨freshId, "Laptop", some "High-performance laptop",
         (999.99 : Rat), some "Electronics"⟩ h
  · rfl

/-- C7 witness: the round trip on the empty store under a concrete
generated identifier. -/
theorem create_then_fetch_roundtrip_witness :
    ProductsService.getProductById
        (ProductsService.createProduct [] "65f0a1b2c3d4e5f601234567"
          laptopPayload).2
        "65f0a1b2c3d4e5f601234567" =
      some (ProductsService.createProduct [] "65f0a1b2c3d4e5f601234567"
        laptopPayload).1 ∧
    (ProductsService.createProduct [] "65f0a1b2c3d4e5f601234567"
      laptopPayload).1 =
      ⟨"65f0a1b2c3d4e5f601234567", "Laptop",
       some "High-performance laptop", (999.99 : Rat),
       some "Electronics"⟩ :=
  create_then_fetch_roundtrip [] "65f0a1b2c3d4e5f601234567" rfl

/-- C8: a PATCH whose body carries only price 899.99 against any stored
product updates only the price: the updated record keeps the stored
name, description, category and identifier, its price becomes 899.99,
and it is what the store then holds under that identifier. -/
theorem patch_only_price (store : Store) (i : String) (doc : ProductDoc)
    (hvalid : isValidObjectId i = true)
    (hfound : findById store i = some doc) :
    ∃ d2 store2,
      ProductsController.updateProductById store i
          ⟨none, none, some (899.99 : Rat), none, none⟩ =
        (.updated "Product successfully updated" d2,
         [.findByIdAndUpdate i], store2) ∧
      d2.name = doc.name ∧ d2.description = doc.description ∧
      d2.category = doc.category ∧ d2._id = doc._id ∧
      d2.price = (899.99 : Rat) ∧
      findById store2 i = some d2 := by
  refine ⟨applyUpdate doc ⟨none, none, some (899.99 : Rat), none, none⟩,
    (ProductsService.updateProduct store i
      ⟨none, none, some (899.99 : Rat), none, none⟩).2,
    ?_, rfl, rfl, rfl, rfl, rfl, ?_⟩
  · simp [ProductsController.updateProductById, hvalid,
      updateProduct_of_found_fst store i
        ⟨none, none, some (899.99 : Rat), none, none⟩ doc hfound]
  · exact findById_updateProduct_of_found store i
      ⟨none, none, some (899.99 : Rat), none, none⟩ doc hfound

/-- C8 witness: patching the stored Laptop record with only the price
yields the same record with price 899.99. -/
theorem patch_only_price_witness :
    ∃ d2 store2,
      ProductsController.updateProductById
          [⟨"65f0a1b2c3d4e5f601234567", "Laptop",
            some "High-performance laptop", (999.99 : Rat),
            some "Electronics"⟩]
          "65f0a1b2c3d4e5f601234567"
          ⟨none, none, some (899.99 : Rat), none, none⟩ =
        (.updated "Product successfully updated" d2,
         [.findByIdAndUpdate "65f0a1b2c3d4e5f601234567"], store2) ∧
      d2.name = "Laptop" ∧
      d2.description = some "High-performance laptop" ∧
      d2.category = some "Electronics" ∧
      d2._id = "65f0a1b2c3d4e5f601234567" ∧
      d2.price = (899.99 : Rat) ∧
      findById store2 "65f0a1b2c3d4e5f601234567" = some d2 :=
  patch_only_price
    [⟨"65f0a1b2c3d4e5f601234567", "Laptop",
      some "High-performance laptop", (999.99 : Rat),
      some "Electronics"⟩]
    "65f0a1b2c3d4e5f601234567"
    ⟨"65f0a1b2c3d4e5f601234567", "Laptop",
     some "High-performance laptop", (999.99 : Rat),
     some "Electronics"⟩
    (by decide) rfl

/-- C9: deleting a syntactically valid identifier with no stored record
(never created or already deleted) answers 404 Product not found and
leaves the store unchanged, so the repeated delete answers 404 again;
and after a successful delete from a store with pairwise-distinct
identifiers, the second delete of the same identifier answers 404. The
handlers are total functions, so no call crashes. -/
theorem delete_missing_idempotent (store : Store) (i : String) :
    (isValidObjectId i = true → findById store i = none →
      ProductsController.deleteProduct store i =
        (.httpError 404 "Product not found", [.findByIdAndDelete i],
         store) ∧
      ProductsController.deleteProduct
          (ProductsController.deleteProduct store i).2.2 i =
        (.httpError 404 "Product not found", [.findByIdAndDelete i],
         store)) ∧
    (isValidObjectId i = true →
      (store.map ProductDoc._id).Nodup →
      ∀ doc, findById store i = some doc →
        (ProductsController.deleteProduct store i).1 =
          .deleted "Product successfully deleted" ∧
        (ProductsController.deleteProduct
            (ProductsController.deleteProduct store i).2.2 i).1 =
          .httpError 404 "Product not found") := by
  constructor
  · intro hv habs
    have h1 : ProductsController.deleteProduct store i =
        (.httpError 404 "Product not found", [.findByIdAndDelete i],
         store) := by
      simp [ProductsController.deleteProduct, hv,
        deleteProduct_of_absent store i habs]
    refine ⟨h1, ?_⟩
    rw [h1]
    exact h1
  · intro hv hnd doc hfound
    have hfst := deleteProduct_of_found store i doc hfound
    have hctrl2 : (ProductsController.deleteProduct store i).2.2 =
        (ProductsService.deleteProduct store i).2 := by
      cases hfst2 : (ProductsService.deleteProduct store i).1 <;>
        simp [ProductsController.deleteProduct, hv, hfst2]
    constructor
    · simp [ProductsController.deleteProduct, hv, hfst]
    · have h2 : findById (ProductsService.deleteProduct store i).2 i =
          none := findById_deleteProduct_of_nodup store i hnd
      rw [hctrl2]
      simp [ProductsController.deleteProduct, hv,
        deleteProduct_of_absent _ i h2]

/-- C9 witness: deleting a well-formed identifier on the empty store is
404 twice, and deleting the only stored record succeeds once and then
answers 404. -/
theorem delete_missing_idempotent_witness :
    ProductsController.deleteProduct [] "65f0a1b2c3d4e5f601234567" =
      (.httpError 404 "Product not found",
       [.findByIdAndDelete "65f0a1b2c3d4e5f601234567"], []) ∧
    (ProductsController.deleteProduct
        [⟨"65f0a1b2c3d4e5f601234567", "Laptop", none, (999.99 : Rat),
          none⟩]
        "65f0a1b2c3d4e5f601234567").1 =
      .deleted "Product successfully deleted" ∧
    (ProductsController.deleteProduct
        (ProductsController.deleteProduct
          [⟨"65f0a1b2c3d4e5f601234567", "Laptop", none, (999.99 : Rat),
            none⟩]
          "65f0a1b2c3d4e5f601234567").2.2
        "65f0a1b2c3d4e5f601234567").1 =
      .httpError 404 "Product not found" := by
  refine ⟨((delete_missing_idempotent [] "65f0a1b2c3d4e5f601234567").1
      (by decide) rfl).1, ?_, ?_⟩
  · exact ((delete_missing_idempotent
      [⟨"65f0a1b2c3d4e5f601234567", "Laptop", none, (999.99 : Rat),
        none⟩]
      "65f0a1b2c3d4e5f601234567").2 (by decide) (by decide)
      ⟨"65f0a1b2c3d4e5f601234567", "Laptop", none, (999.99 : Rat),
       none⟩ rfl).1
  · exact ((delete_missing_idempotent
      [⟨"65f0a1b2c3d4e5f601234567", "Laptop", none, (999.99 : Rat),
        none⟩]
      "65f0a1b2c3d4e5f601234567").2 (by decide) (by decide)
      ⟨"65f0a1b2c3d4e5f601234567", "Laptop", none, (999.99 : Rat),
       none⟩ rfl).2
